import Mathlib

/-!
Verification of the HMS hotel-management backend (FastAPI + SQLAlchemy).

The development shallowly embeds the authentication and validation core of the
backend: password verification (auth.py), JWT issue and decode (auth.py), the
per-request user resolution (auth.py), the role guard, the route table with its
authentication dependencies (main.py), the booking date validators (schemas.py),
the service-order amount check (main.py), the user-creation schema and the
role enum (schemas.py, models.py, crud.py), and the module-import secret check
(auth.py).

Conventions of the embedding:
  - Python calls that can raise are functions into `Res e a` (normal return or
    raised exception).
  - Calendar dates are embedded as integers; `datetime.date` is a totally
    ordered type and only its order is ever used by the code.
  - Clock time is an integer count of seconds (unix time).
  - Monetary values handled through `decimal.Decimal` in the code are embedded
    as rationals; every finite decimal is an exact rational, and Python
    compares `Decimal` with a `float` exactly, so the float literal `0.01` of
    main.py is embedded as the exact rational value of the IEEE-754 double
    nearest to 1/100.
  - JWT signing is embedded symbolically: a token records its payload, the
    signing key and the algorithm; decoding with a different key or an
    unaccepted algorithm is a signature failure. Unforgeability of HMAC is
    assumed, as the specification does.
-/

namespace HMS

/-- Result of a Python call: either a normal return or a raised exception. -/
inductive Res (e : Type) (a : Type) where
  | ok (value : a)
  | error (exc : e)
deriving DecidableEq

/-- True when the call returned normally. -/
def Res.isOk {e a : Type} : Res e a → Bool
  | .ok _ => true
  | .error _ => false

/-- fastapi.HTTPException: status code, detail string, and whether the
response carries the WWW-Authenticate Bearer header. -/
structure HTTPException where
  status_code : Nat
  detail : String
  wwwAuthenticateBearer : Bool
deriving DecidableEq

/-- A stored password-hash string as passlib sees it: either a string in valid
bcrypt format, or any other string, which CryptContext cannot identify. The
digest component abstracts the salted bcrypt digest; the one-way function
itself is not modelled, no claim depends on it. -/
inductive HashStr where
  | bcrypt (digest : String)
  | malformed (raw : String)
deriving DecidableEq

/-- passlib.exc.UnknownHashError, raised when a hash string is not in any
format known to the CryptContext. -/
inductive PasslibError where
  | unknownHash
deriving DecidableEq

/-- Abstract stand-in for the bcrypt digest of a password (injective by
construction; the real function is one-way, which no claim here needs). -/
def bcryptDigest (password : String) : String := "bcrypt-digest:" ++ password

/-- passlib CryptContext(schemes=[bcrypt]).verify: the context first identifies
the hash format; a string it cannot identify raises UnknownHashError - it is
NOT turned into a False return - and a well-formed bcrypt hash is checked
against the plaintext. -/
def cryptContextVerify (plain : String) (hashed : HashStr) : Res PasslibError Bool :=
  match hashed with
  | .bcrypt digest => .ok (digest == bcryptDigest plain)
  | .malformed _ => .error .unknownHash

/-- auth.py lines 41-43: verify_password returns pwd_context.verify directly,
with no exception handling around it. -/
def verify_password (plain_password : String) (hashed_password : HashStr) :
    Res PasslibError Bool :=
  cryptContextVerify plain_password hashed_password

/-- auth.py lines 37-39. -/
def hash_password (password : String) : HashStr := .bcrypt (bcryptDigest password)

/-- The process-wide configuration read at import of auth.py: SECRET_KEY,
ALGORITHM (default HS256) and ACCESS_TOKEN_EXPIRE_MINUTES (default 30). -/
structure AuthConfig where
  secretKey : String
  algorithm : String
  accessTokenExpireMinutes : Int
deriving DecidableEq

/-- The claims dictionary carried by a token: sub, role, and the absolute
expiry timestamp added by create_access_token. -/
structure TokenPayload where
  sub : Option String
  role : Option String
  exp : Int
deriving DecidableEq

/-- A signed JWT, embedded symbolically: payload plus the key and algorithm it
was signed with. -/
structure JWT where
  payload : TokenPayload
  key : String
  alg : String
deriving DecidableEq

/-- jose.JWTError cases relevant here. ExpiredSignatureError is a subclass of
JWTError in python-jose. -/
inductive JoseError where
  | invalidSignature
  | expiredSignature
deriving DecidableEq

/-- jose.jwt.encode. -/
def joseEncode (payload : TokenPayload) (key : String) (alg : String) : JWT :=
  ⟨payload, key, alg⟩

/-- jose.jwt.decode(token, key, algorithms): verifies the signature against the
key and the accepted algorithm list, then validates the exp claim; python-jose
raises ExpiredSignatureError when exp < now (leeway 0). -/
def joseDecode (tok : JWT) (key : String) (algs : List String) (now : Int) :
    Res JoseError TokenPayload :=
  if tok.key = key ∧ tok.alg ∈ algs then
    if tok.payload.exp < now then .error .expiredSignature
    else .ok tok.payload
  else .error .invalidSignature

/-- The data dict passed to create_access_token by the login handler:
sub and role claims (main.py line 33). -/
structure TokenInput where
  sub : Option String
  role : Option String
deriving DecidableEq

/-- auth.py lines 47-55: copy the claims, add exp = now + expires_delta
(or now + ACCESS_TOKEN_EXPIRE_MINUTES minutes when no delta is given), and
sign with the configured secret and algorithm. expires_delta is a timedelta,
embedded in seconds. -/
def create_access_token (cfg : AuthConfig) (data : TokenInput)
    (expires_delta : Option Int) (now : Int) : JWT :=
  let expire : Int :=
    match expires_delta with
    | some d => now + d
    | none => now + 60 * cfg.accessTokenExpireMinutes
  joseEncode ⟨data.sub, data.role, expire⟩ cfg.secretKey cfg.algorithm

/-- schemas.py 57-58: TokenData carries only the username. -/
structure TokenData where
  username : String
deriving DecidableEq

/-- The 401 raised by decode_access_token and get_current_user. -/
def invalidCredentials401 : HTTPException :=
  ⟨401, "Invalid authentication credentials", true⟩

/-- auth.py lines 57-75: decode the token with the configured key and
algorithm; any JWTError (bad signature, expired) becomes a 401; a payload
without a sub claim becomes a 401; otherwise the subject is wrapped in
TokenData. -/
def decode_access_token (cfg : AuthConfig) (token : JWT) (now : Int) :
    Res HTTPException TokenData :=
  match joseDecode token cfg.secretKey [cfg.algorithm] now with
  | .error _ => .error invalidCredentials401
  | .ok payload =>
    match payload.sub with
    | none => .error invalidCredentials401
    | some username => .ok ⟨username⟩

/-- models.py User (timestamps and relationship attributes elided: they are
database-generated and never read by the embedded code). -/
structure User where
  id : Nat
  username : String
  email : String
  hashed_password : HashStr
  first_name : Option String
  last_name : Option String
  role : String
  phone_number : Option String
  address : Option String
deriving DecidableEq

/-- auth.py lines 79-91: decode the token, then look the subject up in the
users table on every call; a missing user is a 401. -/
def get_current_user (cfg : AuthConfig) (db : List User) (token : JWT)
    (now : Int) : Res HTTPException User :=
  match decode_access_token cfg token now with
  | .error e => .error e
  | .ok token_data =>
    match db.find? (fun u => u.username == token_data.username) with
    | none => .error invalidCredentials401
    | some user => .ok user

/-- The 401 raised by get_current_active_user when the subject has no row. -/
def inactiveUser401 : HTTPException := ⟨401, "Inactive user", true⟩

/-- auth.py lines 95-110: identical to get_current_user except for the detail
string of the 401. -/
def get_current_active_user (cfg : AuthConfig) (db : List User) (token : JWT)
    (now : Int) : Res HTTPException User :=
  match decode_access_token cfg token now with
  | .error e => .error e
  | .ok token_data =>
    match db.find? (fun u => u.username == token_data.username) with
    | none => .error inactiveUser401
    | some user => .ok user

/-- auth.py lines 114-119. -/
def authenticate_user (db : List User) (username password : String) :
    Res PasslibError (Option User) :=
  match db.find? (fun u => u.username == username) with
  | none => .ok none
  | some user =>
    match verify_password password user.hashed_password with
    | .error e => .error e
    | .ok true => .ok (some user)
    | .ok false => .ok none

/-- The 403 produced by the role guard. -/
def roleForbidden403 : HTTPException :=
  ⟨403, "User does not have the required role", true⟩

/-- Modelled from the spec: every protected route of main.py is guarded with
Depends(auth.RoleChecker([...])) (for example main.py lines 50, 142, 175), but
no definition of RoleChecker exists anywhere under src - auth.py defines only
the unused check_user_role. Spec section 4.3: authorize(principal,
allowed_roles) is a membership test with deny-by-default; insufficient role is
a 403. -/
def RoleChecker (allowed_roles : List String) (user : User) :
    Res HTTPException Unit :=
  if user.role ∈ allowed_roles then .ok () else .error roleForbidden403

/-- auth.py lines 123-131: single-role equality check (present in the source
but referenced by no route). -/
def check_user_role (user : User) (required_role : String) :
    Res HTTPException Bool :=
  if user.role ≠ required_role then
    .error ⟨403, "User does not have the required role: " ++ required_role, true⟩
  else .ok true

/-- HTTP verbs used by main.py. -/
inductive Method where
  | get | post | put | delete
deriving DecidableEq

/-- An authentication dependency attached to a route in main.py. -/
inductive AuthDep where
  | roleChecker (allowed_roles : List String)
  | currentUser
deriving DecidableEq

/-- One registered route of main.py: handler name, verb, path, its
authentication dependency (none when the route has no auth dependency), and
the request-body schema it is declared with. -/
structure Route where
  handler : String
  method : Method
  path : String
  auth : Option AuthDep
  payloadSchema : Option String
deriving DecidableEq

/-- The complete route table of main.py, transcribed in source order. -/
def appRoutes : List Route := [
  ⟨"read_root", .get, "/", none, none⟩,
  ⟨"login_for_access_token", .post, "/token", none, some "OAuth2PasswordRequestForm"⟩,
  ⟨"create_user", .post, "/users/", none, some "UserCreate"⟩,
  ⟨"read_users_me", .get, "/users/me/", some .currentUser, none⟩,
  ⟨"read_users", .get, "/users/", some (.roleChecker ["admin"]), none⟩,
  ⟨"read_user", .get, "/users/\x7buser_id\x7d", some (.roleChecker ["admin"]), none⟩,
  ⟨"update_user", .put, "/users/\x7buser_id\x7d", some (.roleChecker ["admin"]), some "UserUpdate"⟩,
  ⟨"delete_user", .delete, "/users/\x7buser_id\x7d", some (.roleChecker ["admin"]), none⟩,
  ⟨"create_room_type", .post, "/room_types/", some (.roleChecker ["admin"]), some "RoomTypeCreate"⟩,
  ⟨"read_room_types", .get, "/room_types/", none, none⟩,
  ⟨"read_room_type", .get, "/room_types/\x7broom_type_id\x7d", none, none⟩,
  ⟨"update_room_type", .put, "/room_types/\x7broom_type_id\x7d", some (.roleChecker ["admin"]), some "RoomTypeCreate"⟩,
  ⟨"delete_room_type", .delete, "/room_types/\x7broom_type_id\x7d", some (.roleChecker ["admin"]), none⟩,
  ⟨"create_room", .post, "/rooms/", some (.roleChecker ["admin"]), some "RoomCreate"⟩,
  ⟨"read_rooms", .get, "/rooms/", none, none⟩,
  ⟨"read_room", .get, "/rooms/\x7broom_id\x7d", none, none⟩,
  ⟨"update_room", .put, "/rooms/\x7broom_id\x7d", some (.roleChecker ["admin"]), some "RoomUpdate"⟩,
  ⟨"delete_room", .delete, "/rooms/\x7broom_id\x7d", some (.roleChecker ["admin"]), none⟩,
  ⟨"create_guest", .post, "/guests/", some (.roleChecker ["receptionist", "admin"]), some "GuestCreate"⟩,
  ⟨"read_guests", .get, "/guests/", some (.roleChecker ["receptionist", "admin"]), none⟩,
  ⟨"read_guest", .get, "/guests/\x7bguest_id\x7d", some (.roleChecker ["receptionist", "admin"]), none⟩,
  ⟨"update_guest", .put, "/guests/\x7bguest_id\x7d", some (.roleChecker ["receptionist", "admin"]), some "GuestCreate"⟩,
  ⟨"delete_guest", .delete, "/guests/\x7bguest_id\x7d", some (.roleChecker ["admin"]), none⟩,
  ⟨"create_booking", .post, "/bookings/", some (.roleChecker ["receiptionist", "admin"]), some "BookingCreate"⟩,
  ⟨"read_bookings", .get, "/bookings/", some (.roleChecker ["receptionist", "admin"]), none⟩,
  ⟨"read_booking", .get, "/bookings/\x7bbooking_id\x7d", some (.roleChecker ["receptionist", "admin"]), none⟩,
  ⟨"update_booking", .put, "/bookings/\x7bbooking_id\x7d", some (.roleChecker ["receptionist", "admin"]), some "BookingCreate"⟩,
  ⟨"delete_booking", .delete, "/bookings/\x7bbooking_id\x7d", some (.roleChecker ["admin"]), none⟩,
  ⟨"create_service", .post, "/services/", some (.roleChecker ["admin"]), some "ServiceCreate"⟩,
  ⟨"read_services", .get, "/services/", none, none⟩,
  ⟨"read_service", .get, "/services/\x7bservice_id\x7d", none, none⟩,
  ⟨"update_service", .put, "/services/\x7bservice_id\x7d", some (.roleChecker ["admin"]), some "ServiceCreate"⟩,
  ⟨"delete_service", .delete, "/services/\x7bservice_id\x7d", some (.roleChecker ["admin"]), none⟩,
  ⟨"create_service_order", .post, "/service_orders/", some (.roleChecker ["receptionist", "admin"]), some "ServiceOrderCreate"⟩,
  ⟨"read_service_orders", .get, "/service_orders/", some (.roleChecker ["receptionist", "admin"]), none⟩,
  ⟨"read_service_order", .get, "/service_orders/\x7border_id\x7d", some (.roleChecker ["receptionist", "admin"]), none⟩,
  ⟨"update_service_order", .put, "/service_orders/\x7border_id\x7d", some (.roleChecker ["receptionist", "admin"]), some "ServiceOrderBase"⟩,
  ⟨"delete_service_order", .delete, "/service_orders/\x7border_id\x7d", some (.roleChecker ["admin"]), none⟩,
  ⟨"create_housekeeping_task", .post, "/housekeeping_tasks/", some (.roleChecker ["receptionist", "admin"]), some "HousekeepingTaskCreate"⟩,
  ⟨"read_housekeeping_tasks", .get, "/housekeeping_tasks/", some (.roleChecker ["housekeeping", "admin"]), none⟩,
  ⟨"read_housekeeping_task", .get, "/housekeeping_tasks/\x7btask_id\x7d", some (.roleChecker ["housekeeping", "admin"]), none⟩,
  ⟨"update_housekeeping_task", .put, "/housekeeping_tasks/\x7btask_id\x7d", some (.roleChecker ["housekeeping", "admin"]), some "HousekeepingTaskUpdate"⟩,
  ⟨"delete_housekeeping_task", .delete, "/housekeeping_tasks/\x7btask_id\x7d", some (.roleChecker ["admin"]), none⟩]

/-- The 401 raised by fastapi OAuth2PasswordBearer (auto_error) when the
request carries no bearer token. -/
def notAuthenticated401 : HTTPException := ⟨401, "Not authenticated", true⟩

/-- Execution of the authentication dependency of a route, before its handler
body runs: a route without a dependency admits the request unconditionally;
with a dependency, a missing bearer token is a 401 from OAuth2PasswordBearer,
and otherwise the user is resolved and, for RoleChecker, the role is checked.
Only a dependency outcome of ok lets the handler body execute. -/
def runAuthDep (cfg : AuthConfig) (db : List User) (dep : Option AuthDep)
    (token : Option JWT) (now : Int) : Res HTTPException Unit :=
  match dep with
  | none => .ok ()
  | some d =>
    match token with
    | none => .error notAuthenticated401
    | some tok =>
      match d with
      | .currentUser =>
        match get_current_user cfg db tok now with
        | .error e => .error e
        | .ok _ => .ok ()
      | .roleChecker allowed =>
        match get_current_active_user cfg db tok now with
        | .error e => .error e
        | .ok user => RoleChecker allowed user

/-- The three routes claim C2 declares public: root, login, initial user
registration. -/
def claimPublicRoute (r : Route) : Bool :=
  (r.method == .get && r.path == "/") ||
  (r.method == .post && r.path == "/token") ||
  (r.method == .post && r.path == "/users/")

/-- The six further handlers registered without any auth dependency. -/
def publicReadHandlers : List String :=
  ["read_room_types", "read_room_type", "read_rooms", "read_room",
   "read_services", "read_service"]

/-- A route of main.py that carries no authentication dependency. -/
def actuallyPublicRoute (r : Route) : Bool :=
  claimPublicRoute r || publicReadHandlers.contains r.handler

/-- An exception raised by a pydantic model validator: ValueError carries the
message of the raise statement; TypeError is raised by Python itself when the
validator compares None with a date. -/
inductive PyError where
  | valueError (msg : String)
  | typeError
deriving DecidableEq

/-- schemas.py 142-150 BookingBase (dates as integer day numbers). -/
structure BookingBase where
  room_id : Nat
  guest_id : Nat
  check_in_date : Int
  check_out_date : Int
  num_guests : Nat
  total_price : Rat
  booking_status : String
  payment_status : String
deriving DecidableEq

/-- The message of the ValueError raised by both date validators. -/
def dateOrderMsg : String := "Check-out date must be after check-in date"

/-- schemas.py 153-157: the model validator on BookingBase. -/
def BookingBase.validate_dates (b : BookingBase) : Res PyError BookingBase :=
  if b.check_out_date ≤ b.check_in_date then .error (.valueError dateOrderMsg)
  else .ok b

/-- schemas.py 160-161: BookingCreate adds nothing to BookingBase. -/
abbrev BookingCreate := BookingBase

/-- schemas.py 163-171 BookingUpdate: every field optional. -/
structure BookingUpdate where
  room_id : Option Nat
  guest_id : Option Nat
  check_in_date : Option Int
  check_out_date : Option Int
  num_guests : Option Nat
  total_price : Option Rat
  booking_status : Option String
  payment_status : Option String
deriving DecidableEq

/-- schemas.py 173-177: the validator on BookingUpdate compares the two
optional dates unconditionally; in Python, <= raises TypeError whenever either
side is None, so the comparison only proceeds when both dates are supplied. -/
def BookingUpdate.validate_dates (b : BookingUpdate) : Res PyError BookingUpdate :=
  match b.check_out_date, b.check_in_date with
  | some o, some i =>
    if o ≤ i then .error (.valueError dateOrderMsg) else .ok b
  | _, _ => .error .typeError

/-- models.py Service row (order relationship elided). -/
structure Service where
  id : Nat
  service_name : String
  price : Rat
  description : Option String
deriving DecidableEq

/-- schemas.py 234-242 ServiceOrderCreate = ServiceOrderBase: note the amount
field is named total_price here, while the database model and the handler use
total_amount. -/
structure ServiceOrderCreate where
  booking_id : Nat
  service_id : Nat
  quantity : Nat
  total_price : Rat
  order_status : String
deriving DecidableEq

/-- Python attribute lookup on the numeric fields of the pydantic payload
(pydantic raises AttributeError for a name that is not a declared field; the
handler only ever reads the attribute total_amount this way, main.py 247). -/
def ServiceOrderCreate.pyattr (p : ServiceOrderCreate) : String → Option Rat
  | "booking_id" => some p.booking_id
  | "service_id" => some p.service_id
  | "quantity" => some p.quantity
  | "total_price" => some p.total_price
  | _ => none

/-- Exact rational value of the IEEE-754 double nearest to 0.01, that is
5764607523034235 * 2 ^ (-59). The comparison on main.py line 247 is between a
Decimal and the float literal 0.01, which Python performs exactly against this
value. It is slightly larger than 1/100. -/
def pyFloat001 : Rat := 5764607523034235 / 576460752303423488

/-- Python abs on a number. -/
def pyAbs (x : Rat) : Rat := if x < 0 then -x else x

/-- main.py lines 246-248: expected_amount = Decimal(str(price)) *
Decimal(str(quantity)); the order mismatches when
abs(expected_amount - Decimal(str(total))) > 0.01. Returns the expected amount
on mismatch (it is interpolated into the 400 detail), none when the amount is
accepted. -/
def amountMismatchCheck (price : Rat) (quantity : Nat) (total : Rat) : Option Rat :=
  let expected_amount := price * (quantity : Rat)
  if pyAbs (expected_amount - total) > pyFloat001 then some expected_amount
  else none

/-- Outcome of the create_service_order handler body. An attributeError is an
uncaught Python AttributeError, surfaced by fastapi as an HTTP 500. -/
inductive ServiceOrderResult where
  | serviceNotFound
  | attributeError (missing : String)
  | amountMismatch (expected : Rat)
  | created (order : ServiceOrderCreate)
deriving DecidableEq

/-- main.py lines 241-250: look the service up (404 when absent), then read
service_order.total_amount - a field ServiceOrderCreate does not declare, so
the lookup fails - then compare against price * quantity with the 0.01
tolerance, and finally create the order. -/
def create_service_order (db_services : List Service)
    (service_order : ServiceOrderCreate) : ServiceOrderResult :=
  match db_services.find? (fun s => s.id == service_order.service_id) with
  | none => .serviceNotFound
  | some db_service =>
    match service_order.pyattr "total_amount" with
    | none => .attributeError "total_amount"
    | some total =>
      match amountMismatchCheck db_service.price service_order.quantity total with
      | some expected => .amountMismatch expected
      | none => .created service_order

/-- The ValueError that aborts interpreter startup of auth.py. -/
inductive StartupError where
  | valueError (msg : String)
deriving DecidableEq

/-- Message of the raise on auth.py line 26. -/
def secretMissingMsg : String := "SECRET_KEY environment variable is not set."

/-- auth.py lines 20-26, run at module import: read SECRET_KEY and ALGORITHM
from the environment, parse ACCESS_TOKEN_EXPIRE_MINUTES (line 22; int() of a
set but non-numeric value raises before the secret check), then raise
ValueError when SECRET_KEY is unset - or set to the empty string, since the
check is the truthiness test `if not SECRET_KEY`. -/
def authModuleStartup (env : String → Option String) : Res StartupError AuthConfig :=
  let algorithm := (env "ALGORITHM").getD "HS256"
  match (match env "ACCESS_TOKEN_EXPIRE_MINUTES" with
         | none => some (30 : Int)
         | some s => s.toInt?) with
  | none => .error (.valueError "invalid literal for int")
  | some minutes =>
    match env "SECRET_KEY" with
    | none => .error (.valueError secretMissingMsg)
    | some sk =>
      if sk = "" then .error (.valueError secretMissingMsg)
      else .ok ⟨sk, algorithm, minutes⟩

/-- schemas.py 10-24 UserCreate (UserBase plus password). -/
structure UserCreate where
  username : String
  email : String
  first_name : Option String
  last_name : Option String
  phone_number : Option String
  address : Option String
  role : String
  password : String
deriving DecidableEq

/-- The alternatives of the role pattern on schemas.py line 19 - note the
misspelling receiptionist. -/
def rolePatternAlternatives : List String :=
  ["admin", "receiptionist", "housekeeping", "guest"]

/-- The anchored alternation of literals on schemas.py line 19,
^(admin|receiptionist|housekeeping|guest)$, matches exactly these strings. -/
def roleMatchesPattern (role : String) : Bool :=
  rolePatternAlternatives.contains role

/-- Length bound on an optional string field. -/
def optLenLe (o : Option String) (n : Nat) : Bool :=
  match o with
  | none => true
  | some s => decide (s.length ≤ n)

/-- The field constraints of UserCreate (schemas.py 10-24): username length
3-50, password length 8-128, bounded optional fields, and the role pattern.
EmailStr validation is performed by the pydantic library and is orthogonal to
every claim. -/
def userCreateValidate (u : UserCreate) : Bool :=
  decide (3 ≤ u.username.length) && decide (u.username.length ≤ 50) &&
  decide (8 ≤ u.password.length) && decide (u.password.length ≤ 128) &&
  optLenLe u.first_name 50 && optLenLe u.last_name 50 &&
  optLenLe u.phone_number 15 && optLenLe u.address 500 &&
  roleMatchesPattern u.role

/-- models.py line 19: the database role enum - correctly spelled
receptionist. -/
def userRolesEnum : List String :=
  ["admin", "receptionist", "housekeeping", "guest"]

/-- Python truthiness on the optional string fields of crud.create_user:
the expression `x if x else None` maps the empty string to None. -/
def truthyOpt (o : Option String) : Option String :=
  match o with
  | some s => if s = "" then none else some s
  | none => none

/-- crud.py 28-44 create_user: hash the password and copy the fields - the
role is copied verbatim into the row. The id is assigned by the database. -/
def create_user_db (new_id : Nat) (user : UserCreate) : User :=
  ⟨new_id, user.username, user.email, hash_password user.password,
   user.first_name, user.last_name, user.role,
   truthyOpt user.phone_number, truthyOpt user.address⟩

/-- The handlers of the guest, booking and service-order endpoints, the routes
claim C10 speaks about. -/
def guardedDomainHandlers : List String :=
  ["create_guest", "read_guests", "read_guest", "update_guest", "delete_guest",
   "create_booking", "read_bookings", "read_booking", "update_booking",
   "delete_booking", "create_service_order", "read_service_orders",
   "read_service_order", "update_service_order", "delete_service_order"]

/-- For a fixed role string: over every guest, booking and service-order route,
membership of the role in the guard list coincides with the route being
create_booking and the role being the misspelled receiptionist. -/
def roleGuardProfile (role : String) : Bool :=
  appRoutes.all fun r =>
    !(guardedDomainHandlers.contains r.handler) ||
    (match r.auth with
     | some (.roleChecker allowed) =>
       allowed.contains role ==
         (role == "receiptionist" && r.handler == "create_booking")
     | _ => true)

/-- A fixed configuration used for concrete evaluations. -/
def cfg0 : AuthConfig := ⟨"test-secret", "HS256", 30⟩

/-- A concrete admin user. -/
def adminAlice : User :=
  ⟨1, "alice", "alice@example.com", hash_password "wonderland-pass",
   none, none, "admin", none, none⟩

/-- A concrete guest-role user. -/
def guestGreg : User :=
  ⟨2, "greg", "greg@example.com", hash_password "greg-password",
   none, none, "guest", none, none⟩

/-- A token issued for bob with a 30 minute ttl at time 0. -/
def bobToken : JWT := create_access_token cfg0 ⟨some "bob", some "admin"⟩ (some 1800) 0

/-- A booking update supplying no field at all. -/
def emptyBookingUpdate : BookingUpdate :=
  ⟨none, none, none, none, none, none, none, none⟩

/-- A booking update supplying only a new check-in date. -/
def checkInOnlyUpdate : BookingUpdate :=
  ⟨none, none, some 100, none, none, none, none, none⟩

/-- A concrete service priced 100.00. -/
def spaService : Service := ⟨1, "Spa", 100, none⟩

/-- A concrete well-formed service-order payload: quantity 3 of service 1 at a
stated total of 300.00. -/
def spaOrder : ServiceOrderCreate := ⟨1, 1, 3, 300, "pending"⟩

/-- An environment whose SECRET_KEY is present but empty. -/
def envEmptySecret : String → Option String :=
  fun k => if k = "SECRET_KEY" then some "" else none

/-- A registration payload whose role is the misspelled receiptionist. -/
def typoReceptionist : UserCreate :=
  ⟨"hannah", "hannah@example.com", none, none, none, none,
   "receiptionist", "password123"⟩

/-- The create_booking route literal as registered in main.py line 175. -/
def createBookingRoute : Route :=
  ⟨"create_booking", .post, "/bookings/",
   some (.roleChecker ["receiptionist", "admin"]), some "BookingCreate"⟩

/-- The read_users route literal as registered in main.py line 50. -/
def readUsersRoute : Route :=
  ⟨"read_users", .get, "/users/", some (.roleChecker ["admin"]), none⟩

/-- The read_room_types route literal as registered in main.py line 80. -/
def readRoomTypesRoute : Route :=
  ⟨"read_room_types", .get, "/room_types/", none, none⟩

/-- The update_booking route literal as registered in main.py line 197: its
request body is declared as schemas.BookingCreate, the full creation schema. -/
def updateBookingRoute : Route :=
  ⟨"update_booking", .put, "/bookings/\x7bbooking_id\x7d",
   some (.roleChecker ["receptionist", "admin"]), some "BookingCreate"⟩

/-- A concrete valid booking payload; the dates are the proleptic ordinals of
2024-05-01 and 2024-05-03. -/
def bookingMay : BookingBase :=
  ⟨1, 1, 739007, 739009, 2, 500, "pending", "pending"⟩

/-- An environment supplying only a non-empty SECRET_KEY. -/
def envOnlySecret : String → Option String :=
  fun k => if k = "SECRET_KEY" then some "s3cret" else none

/-- A token signed with a key other than the configured secret of cfg0: its
decode under cfg0 fails signature verification. -/
def forgedToken : JWT :=
  ⟨⟨some "mallory", some "admin", 100000⟩, "other-secret", "HS256"⟩

theorem mem_iff_contains (a : String) (l : List String) :
    a ∈ l ↔ l.contains a = true := by
  constructor
  · intro h
    simpa [List.contains] using List.elem_eq_true_of_mem h
  · intro h
    exact List.mem_of_elem_eq_true (by simpa [List.contains] using h)

theorem RoleChecker_ok_iff (allowed : List String) (user : User) :
    RoleChecker allowed user = .ok () ↔ user.role ∈ allowed := by
  unfold RoleChecker
  split <;> simp_all

/-- C1: role authorization is a set-membership test with deny-by-default: the
guard allows an authenticated principal exactly when its role is a member of
the allowed set (so role admin passes the set admin-or-receptionist), an empty
or mismatched set denies with a 403, and the single-role check_user_role of
auth.py passes exactly on role equality. -/
theorem claim1_role_guard_membership (user : User) (allowed : List String)
    (required : String) :
    (RoleChecker allowed user = .ok () ↔ user.role ∈ allowed)
    ∧ (user.role ∉ allowed →
        RoleChecker allowed user = .error roleForbidden403
        ∧ roleForbidden403.status_code = 403)
    ∧ RoleChecker [] user = .error roleForbidden403
    ∧ (check_user_role user required = .ok true ↔ user.role = required) := by
  refine ⟨RoleChecker_ok_iff allowed user, ?_, ?_, ?_⟩
  · intro h
    refine ⟨?_, rfl⟩
    unfold RoleChecker
    simp [h]
  · unfold RoleChecker
    simp
  · unfold check_user_role
    split <;> simp_all

/-- Witness for C1 at concrete inputs: an admin passes the two-role set, a
guest is denied the admin-only set with the 403. -/
theorem claim1_witness :
    RoleChecker ["admin", "receptionist"] adminAlice = .ok ()
    ∧ RoleChecker ["admin"] guestGreg = .error roleForbidden403 := by
  refine ⟨?_, ?_⟩
  · exact (claim1_role_guard_membership adminAlice ["admin", "receptionist"]
      "admin").1.mpr (by decide)
  · exact ((claim1_role_guard_membership guestGreg ["admin"] "x").2.1
      (by decide)).1

/-- C5: token round trip: a token issued with claims sub alice, role admin and
a 30 minute ttl decodes at issue time to a payload carrying exactly those two
claims (and decode_access_token returns TokenData alice); 31 minutes after
issue the decode fails with the expired-signature error, which
decode_access_token surfaces as the 401. -/
theorem claim5_token_round_trip (cfg : AuthConfig) (t0 : Int) :
    joseDecode (create_access_token cfg ⟨some "alice", some "admin"⟩
        (some (30 * 60)) t0) cfg.secretKey [cfg.algorithm] t0
      = .ok ⟨some "alice", some "admin", t0 + 30 * 60⟩
    ∧ decode_access_token cfg (create_access_token cfg ⟨some "alice", some "admin"⟩
        (some (30 * 60)) t0) t0
      = .ok ⟨"alice"⟩
    ∧ joseDecode (create_access_token cfg ⟨some "alice", some "admin"⟩
        (some (30 * 60)) t0) cfg.secretKey [cfg.algorithm] (t0 + 31 * 60)
      = .error .expiredSignature
    ∧ decode_access_token cfg (create_access_token cfg ⟨some "alice", some "admin"⟩
        (some (30 * 60)) t0) (t0 + 31 * 60)
      = .error invalidCredentials401 := by
  have hin : ¬ (t0 + 30 * 60 < t0) := by omega
  have hout : t0 + 30 * 60 < t0 + 31 * 60 := by omega
  refine ⟨?_, ?_, ?_, ?_⟩ <;>
    simp [create_access_token, joseEncode, joseDecode, decode_access_token,
      hin, hout]

/-- C6: a valid, unexpired token whose subject has no row in the users table
is rejected with the 401; the lookup is a function of the store passed to the
call, hence performed on every request. -/
theorem claim6_unknown_subject (cfg : AuthConfig) (db : List User) (token : JWT)
    (now : Int) (td : TokenData)
    (hdecode : decode_access_token cfg token now = .ok td)
    (hmissing : db.find? (fun u => u.username == td.username) = none) :
    get_current_user cfg db token now = .error invalidCredentials401
    ∧ invalidCredentials401.status_code = 401 := by
  refine ⟨?_, rfl⟩
  simp [get_current_user, hdecode, hmissing]

/-- Witness for C6: a fresh, valid token for bob against an empty user store
is rejected with the 401. -/
theorem claim6_witness :
    get_current_user cfg0 [] bobToken 0 = .error invalidCredentials401
    ∧ invalidCredentials401.status_code = 401 :=
  claim6_unknown_subject cfg0 [] bobToken 0 ⟨"bob"⟩ (by decide) rfl

/-- C7 counterexample: on a malformed stored hash, verify_password does not
return false - passlib raises UnknownHashError and verify_password (auth.py
41-43, no exception handling) propagates it. -/
theorem claim7_counterexample_malformed_hash_raises :
    verify_password "password123" (HashStr.malformed "not-a-bcrypt-hash")
      = .error PasslibError.unknownHash := rfl

/-- C7 amended: for a well-formed bcrypt hash, verification returns a boolean
(false when the hash does not match the plaintext); for a malformed stored
hash, the UnknownHashError raised by passlib propagates out of
verify_password instead of being treated as a verification failure. -/
theorem claim7_amended_verify (plain raw digest : String) :
    verify_password plain (HashStr.malformed raw)
      = .error PasslibError.unknownHash
    ∧ verify_password plain (HashStr.bcrypt digest)
      = .ok (digest == bcryptDigest plain) :=
  ⟨rfl, rfl⟩

/-- C3: the handler never reaches the amount comparison: the pydantic payload
ServiceOrderCreate declares no field total_amount (its amount field is named
total_price), so the read of service_order.total_amount on main.py line 247
raises AttributeError for every payload, and in particular the well-formed
order of 3 units of the 100.00 service at a stated total of 300.00 ends in the
uncaught AttributeError (HTTP 500) instead of being validated and created. -/
theorem claim3_service_order_attribute_error :
    (∀ so : ServiceOrderCreate, so.pyattr "total_amount" = none)
    ∧ create_service_order [spaService] spaOrder
      = .attributeError "total_amount" := by
  refine ⟨?_, rfl⟩
  intro so
  rfl

/-- C8 counterexample: with unit price 100.00 and quantity 3, a total of
300.02 is NOT accepted: the difference from the expected 300.00 is 0.02,
which exceeds the 0.01 tolerance, so the check reports a mismatch with
expected 300.00 - the claim calls this input an accepted tolerance edge. -/
theorem claim8_counterexample_300_02_rejected :
    amountMismatchCheck 100 3 (30002 / 100 : Rat) = some 300 := by
  norm_num [amountMismatchCheck, pyAbs, pyFloat001]

/-- C8 amended: with unit price 100.00 and quantity 3, a total of 300.00 is
accepted, the tolerance edge is 300.01 (accepted), and totals of 300.02 and
301.00 are rejected with expected amount 300.00. -/
theorem claim8_amended_tolerance_instances :
    amountMismatchCheck 100 3 300 = none
    ∧ amountMismatchCheck 100 3 (30001 / 100 : Rat) = none
    ∧ amountMismatchCheck 100 3 (30002 / 100 : Rat) = some 300
    ∧ amountMismatchCheck 100 3 301 = some 300 := by
  refine ⟨?_, ?_, ?_, ?_⟩ <;> norm_num [amountMismatchCheck, pyAbs, pyFloat001]

/-- C4 counterexample: an update that supplies no new date value is not passed
through unvalidated, and an update that supplies a single new date does not
trigger a re-check of the resulting pair: in both cases the BookingUpdate
validator of schemas.py 173-177 compares None with <= and raises TypeError. -/
theorem claim4_counterexample_update_type_error :
    BookingUpdate.validate_dates emptyBookingUpdate = .error PyError.typeError
    ∧ BookingUpdate.validate_dates checkInOnlyUpdate = .error PyError.typeError :=
  ⟨rfl, rfl⟩

/-- C4 amended: creation fails with the date-range ValueError unless check-out
is strictly after check-in (equal dates rejected); the update route takes the
full BookingCreate schema, so every update supplies both dates and re-validates
the pair identically to creation; the partial BookingUpdate schema validates
only when both dates are supplied (same strict check) and raises TypeError
whenever either date is omitted. -/
theorem claim4_amended_date_validation (b : BookingBase) (u : BookingUpdate)
    (i o : Int) :
    (BookingBase.validate_dates b = .ok b ↔ b.check_in_date < b.check_out_date)
    ∧ (b.check_out_date = b.check_in_date →
        BookingBase.validate_dates b = .error (.valueError dateOrderMsg))
    ∧ (updateBookingRoute ∈ appRoutes
        ∧ updateBookingRoute.payloadSchema = some "BookingCreate")
    ∧ (u.check_in_date = none ∨ u.check_out_date = none →
        BookingUpdate.validate_dates u = .error PyError.typeError)
    ∧ (u.check_in_date = some i → u.check_out_date = some o →
        (BookingUpdate.validate_dates u = .ok u ↔ i < o)) := by
  refine ⟨?_, ?_, ⟨by decide, rfl⟩, ?_, ?_⟩
  · unfold BookingBase.validate_dates
    split <;> simp_all
  · intro h
    simp [BookingBase.validate_dates, h]
  · intro h
    cases hco : u.check_out_date <;> cases hci : u.check_in_date <;>
      simp_all [BookingUpdate.validate_dates]
  · intro h1 h2
    simp only [BookingUpdate.validate_dates, h1, h2]
    split <;> simp_all

/-- Witness for C4 at concrete inputs: a two-night booking passes creation
validation; an update supplying only a check-in date raises TypeError. -/
theorem claim4_witness :
    BookingBase.validate_dates bookingMay = .ok bookingMay
    ∧ BookingUpdate.validate_dates checkInOnlyUpdate = .error PyError.typeError := by
  refine ⟨?_, ?_⟩
  · exact (claim4_amended_date_validation bookingMay checkInOnlyUpdate 0 0).1.mpr
      (by decide)
  · exact (claim4_amended_date_validation bookingMay checkInOnlyUpdate 0 0).2.2.2.1
      (Or.inr rfl)

/-- C9 counterexample: a SECRET_KEY that is present but empty aborts startup
with the missing-secret ValueError, because the check on auth.py line 25 is
the truthiness test `if not SECRET_KEY`. -/
theorem claim9_counterexample_empty_secret_aborts :
    envEmptySecret "SECRET_KEY" = some ""
    ∧ authModuleStartup envEmptySecret = .error (.valueError secretMissingMsg) :=
  ⟨rfl, rfl⟩

/-- C9 amended: with a well-formed ttl setting, startup aborts with the
missing-secret ValueError when SECRET_KEY is absent OR set to the empty
string, and proceeds (for this reason) exactly when a non-empty secret is
present. -/
theorem claim9_amended_fail_fast (env : String → Option String)
    (hminutes : env "ACCESS_TOKEN_EXPIRE_MINUTES" = none) :
    (env "SECRET_KEY" = none →
      authModuleStartup env = .error (.valueError secretMissingMsg))
    ∧ (env "SECRET_KEY" = some "" →
      authModuleStartup env = .error (.valueError secretMissingMsg))
    ∧ (∀ sk, env "SECRET_KEY" = some sk → sk ≠ "" →
      authModuleStartup env = .ok ⟨sk, (env "ALGORITHM").getD "HS256", 30⟩) := by
  refine ⟨?_, ?_, ?_⟩
  · intro h
    simp [authModuleStartup, hminutes, h]
  · intro h
    simp [authModuleStartup, hminutes, h]
  · intro sk hsk hne
    simp [authModuleStartup, hminutes, hsk, hne]

/-- Witness for C9: an environment carrying only a non-empty secret starts
with the default algorithm and ttl. -/
theorem claim9_witness :
    authModuleStartup envOnlySecret = .ok ⟨"s3cret", "HS256", 30⟩ := by
  have h := (claim9_amended_fail_fast envOnlySecret rfl).2.2 "s3cret" rfl
    (by decide)
  simpa using h

/-- C2 counterexample: GET /room_types/ is none of root, login or initial user
registration, yet it is registered with no authentication dependency, and a
request presenting no bearer token passes straight through to the handler
body instead of being rejected with a 401. -/
theorem claim2_counterexample_public_read_route :
    readRoomTypesRoute ∈ appRoutes
    ∧ claimPublicRoute readRoomTypesRoute = false
    ∧ readRoomTypesRoute.auth = none
    ∧ (∀ cfg db now, runAuthDep cfg db readRoomTypesRoute.auth none now = .ok ()) := by
  refine ⟨by decide, rfl, rfl, ?_⟩
  intro cfg db now
  rfl

theorem decode_access_token_error_eq (cfg : AuthConfig) (tok : JWT) (now : Int)
    (err : HTTPException)
    (h : decode_access_token cfg tok now = .error err) :
    err = invalidCredentials401 := by
  unfold decode_access_token at h
  split at h
  · simp_all
  · split at h <;> simp_all

theorem get_current_user_decode_error (cfg : AuthConfig) (db : List User)
    (tok : JWT) (now : Int) (err : HTTPException)
    (h : decode_access_token cfg tok now = .error err) :
    get_current_user cfg db tok now = .error err := by
  simp [get_current_user, h]

theorem get_current_active_user_decode_error (cfg : AuthConfig) (db : List User)
    (tok : JWT) (now : Int) (err : HTTPException)
    (h : decode_access_token cfg tok now = .error err) :
    get_current_active_user cfg db tok now = .error err := by
  simp [get_current_active_user, h]

/-- C2 amended: besides root, POST /token and POST /users/, six read
endpoints (the room-type, room and service list and by-id GETs) also skip
authentication; every OTHER route of main.py carries an authentication
dependency, and that dependency rejects with a 401 before the handler body
runs both a request presenting no bearer token and a request presenting an
invalid token, that is one whose decode fails (bad signature, expired, or
missing subject claim). -/
theorem claim2_amended_protected_routes_401 (r : Route)
    (h1 : r ∈ appRoutes) (h2 : actuallyPublicRoute r = false) :
    ∃ dep, r.auth = some dep
    ∧ (∀ cfg db now, runAuthDep cfg db r.auth none now = .error notAuthenticated401)
    ∧ (∀ cfg db tok now err, decode_access_token cfg tok now = .error err →
        runAuthDep cfg db r.auth (some tok) now = .error err
        ∧ err.status_code = 401)
    ∧ notAuthenticated401.status_code = 401 := by
  have hall : appRoutes.all (fun r => actuallyPublicRoute r || r.auth.isSome) = true := by
    decide
  have hthis := List.all_eq_true.mp hall r h1
  simp only [h2, Bool.false_or] at hthis
  obtain ⟨dep, hdep⟩ := Option.isSome_iff_exists.mp hthis
  refine ⟨dep, hdep, ?_, ?_, rfl⟩
  · intro cfg db now
    rw [hdep]
    rfl
  · intro cfg db tok now err hdecode
    have herr : err = invalidCredentials401 :=
      decode_access_token_error_eq cfg tok now err hdecode
    refine ⟨?_, by rw [herr]; rfl⟩
    rw [hdep]
    cases dep with
    | currentUser =>
      simp [runAuthDep, get_current_user_decode_error cfg db tok now err hdecode]
    | roleChecker allowed =>
      simp [runAuthDep,
        get_current_active_user_decode_error cfg db tok now err hdecode]

/-- Witness for C2 amended at a concrete route: GET /users/ carries the
admin RoleChecker dependency, rejects a tokenless request with the 401, and
rejects a request bearing a token signed with the wrong key with the 401. -/
theorem claim2_witness :
    (∃ dep, readUsersRoute.auth = some dep
      ∧ (∀ cfg db now, runAuthDep cfg db readUsersRoute.auth none now
          = .error notAuthenticated401)
      ∧ (∀ cfg db tok now err, decode_access_token cfg tok now = .error err →
          runAuthDep cfg db readUsersRoute.auth (some tok) now = .error err
          ∧ err.status_code = 401)
      ∧ notAuthenticated401.status_code = 401)
    ∧ runAuthDep cfg0 [] readUsersRoute.auth (some forgedToken) 0
        = .error invalidCredentials401 := by
  have h := claim2_amended_protected_routes_401 readUsersRoute (by decide)
    (by decide)
  refine ⟨h, ?_⟩
  obtain ⟨dep, hdep, hnone, hbad, hstatus⟩ := h
  exact (hbad cfg0 [] forgedToken 0 invalidCredentials401 (by decide)).1

/-- C10 counterexample: the registration schema accepts the misspelled role
receiptionist, a non-admin role, and the POST /bookings/ guard (main.py 175)
lists that same misspelling, so this schema-created non-admin user DOES
satisfy the role guard of a booking endpoint. -/
theorem claim10_counterexample_booking_guard_typo :
    userCreateValidate typoReceptionist = true
    ∧ typoReceptionist.role ≠ "admin"
    ∧ createBookingRoute ∈ appRoutes
    ∧ createBookingRoute.auth = some (.roleChecker ["receiptionist", "admin"])
    ∧ RoleChecker ["receiptionist", "admin"] (create_user_db 7 typoReceptionist)
        = .ok () := by
  refine ⟨by decide, by decide, by decide, rfl, by decide⟩

/-- C10 amended: every accepted UserCreate payload has a role drawn from the
misspelled pattern, so the correctly spelled receptionist - the spelling of
the database enum - can never be assigned through the schema; a schema-created
non-admin user therefore satisfies no role guard on the guest, booking and
service-order endpoints EXCEPT the POST /bookings/ guard, which repeats the
misspelling and is satisfied exactly by users with role receiptionist. -/
theorem roleGuardProfile_spec (role : String)
    (hprofile : roleGuardProfile role = true)
    (r : Route) (hr : r ∈ appRoutes)
    (hdom : guardedDomainHandlers.contains r.handler = true)
    (allowed : List String) (hauth : r.auth = some (.roleChecker allowed)) :
    allowed.contains role
      = (role == "receiptionist" && r.handler == "create_booking") := by
  have hb := List.all_eq_true.mp hprofile r hr
  simp only [hdom, Bool.not_true, Bool.false_or, hauth] at hb
  exact eq_of_beq hb

theorem claim10_amended_role_typo (u : UserCreate) (new_id : Nat)
    (hv : userCreateValidate u = true) (hna : u.role ≠ "admin")
    (r : Route) (hr : r ∈ appRoutes)
    (hdom : guardedDomainHandlers.contains r.handler = true)
    (allowed : List String) (hauth : r.auth = some (.roleChecker allowed)) :
    u.role ≠ "receptionist"
    ∧ ("receptionist" ∈ userRolesEnum ∧ roleMatchesPattern "receptionist" = false)
    ∧ (RoleChecker allowed (create_user_db new_id u) = .ok ()
        ↔ (u.role = "receiptionist" ∧ r.handler = "create_booking")) := by
  have hrm : roleMatchesPattern u.role = true := by
    simp only [userCreateValidate, Bool.and_eq_true] at hv
    exact hv.2
  have hmem : u.role ∈ rolePatternAlternatives := (mem_iff_contains _ _).mpr hrm
  simp only [rolePatternAlternatives, List.mem_cons, List.not_mem_nil,
    or_false] at hmem
  rcases hmem with h | h | h | h
  · exact absurd h hna
  · refine ⟨by rw [h]; decide, by decide, ?_⟩
    have hc := roleGuardProfile_spec "receiptionist" (by decide) r hr hdom
      allowed hauth
    rw [RoleChecker_ok_iff]
    show u.role ∈ allowed ↔ _
    rw [h, mem_iff_contains, hc]
    simp
  · refine ⟨by rw [h]; decide, by decide, ?_⟩
    have hc := roleGuardProfile_spec "housekeeping" (by decide) r hr hdom
      allowed hauth
    rw [RoleChecker_ok_iff]
    show u.role ∈ allowed ↔ _
    rw [h, mem_iff_contains, hc]
    have h1 : ("housekeeping" == "receiptionist") = false := by decide
    have h2 : ¬ ("housekeeping" = "receiptionist") := by decide
    simp [h1, h2]
  · refine ⟨by rw [h]; decide, by decide, ?_⟩
    have hc := roleGuardProfile_spec "guest" (by decide) r hr hdom
      allowed hauth
    rw [RoleChecker_ok_iff]
    show u.role ∈ allowed ↔ _
    rw [h, mem_iff_contains, hc]
    have h1 : ("guest" == "receiptionist") = false := by decide
    have h2 : ¬ ("guest" = "receiptionist") := by decide
    simp [h1, h2]

/-- Witness for C10 amended at concrete inputs: a valid registration payload
with the misspelled receiptionist role, checked against the POST /bookings/
route. -/
theorem claim10_witness :
    typoReceptionist.role ≠ "receptionist"
    ∧ ("receptionist" ∈ userRolesEnum ∧ roleMatchesPattern "receptionist" = false)
    ∧ (RoleChecker ["receiptionist", "admin"] (create_user_db 7 typoReceptionist)
          = .ok ()
        ↔ (typoReceptionist.role = "receiptionist"
            ∧ createBookingRoute.handler = "create_booking")) :=
  claim10_amended_role_typo typoReceptionist 7 (by decide) (by decide)
    createBookingRoute (by decide) (by decide) ["receiptionist", "admin"] rfl

end HMS
